import Mathlib

/-!
Shallow embedding of `src/python/veteran_job_scraper.py` (class `JobScraper`):
the matrix scrape orchestrator `scrape_jobs_jobspy` and the normalization
pipeline `process_jobs`, together with theorems settling the spec claims.

Python values that flow through the raw job records are modelled by `PyVal`
(`None`, strings, integers, booleans); a raw record field is `Option PyVal`,
where `none` means the key is absent from the dict and `some .pnone` means the
key is present with value `None` — this keeps Python's `dict.get(k, default)`
distinction visible.  `datetime.now()` is modelled by a clock stream
`Nat → Int` (microsecond timestamps); each call to `now()` consumes the next
reading.
-/

/-- Model of the Python values appearing in raw job records. -/
inductive PyVal where
  | pnone : PyVal
  | pstr (s : String) : PyVal
  | pint (n : Int) : PyVal
  | pbool (b : Bool) : PyVal
deriving DecidableEq, Repr

/-- Python `str(v)` on the modelled values. -/
def pyStr : PyVal → String
  | .pnone => "None"
  | .pstr s => s
  | .pint n => toString n
  | .pbool true => "True"
  | .pbool false => "False"

/-- Python truthiness (`if v:`) on the modelled values. -/
def pyTruthy : PyVal → Bool
  | .pnone => false
  | .pstr s => s ≠ ""
  | .pint n => n ≠ 0
  | .pbool b => b

/-- Python `dict.get(key, default)`: `o` is the field slot (absent / present). -/
def pyGet (o : Option PyVal) (dflt : PyVal) : PyVal := o.getD dflt

/-- Occurrence of `sub` as a contiguous sublist of `l` (Python `in` on `str`,
over the character lists). -/
def charSub : List Char → List Char → Bool
  | sub, [] => sub.isEmpty
  | sub, c :: rest => sub.isPrefixOf (c :: rest) || charSub sub rest

/-- Python `sub in s` for strings: substring containment. -/
def pyInStr (sub s : String) : Bool := charSub sub.toList s.toList

/-- Python `s.lower()`, modelled characterwise. -/
def pyLower (s : String) : String := (s.toList.map Char.toLower).asString

/-- `JobScraper.veteran_keywords` (source lines 27–32). -/
def veteran_keywords : List String :=
  ["veteran", "military", "clearance", "security clearance",
   "veteran friendly", "military experience", "veteran preferred",
   "former military", "ex-military", "military background",
   "veteran hiring", "military transition", "veteran owned"]

/-- `JobScraper.has_veteran_keywords` (source lines 92–104): `[]` for falsy or
non-string text, else all keywords whose lowercase form is a substring of the
lowercased text. -/
def has_veteran_keywords (text : PyVal) : List String :=
  match text with
  | .pstr s =>
    if s = "" then []
    else veteran_keywords.filter (fun keyword => pyInStr (pyLower keyword) (pyLower s))
  | _ => []

/-- A raw job record: the fields `process_jobs` reads, each either absent
(`none`) or present with a `PyVal` (possibly `.pnone`). -/
structure RawJob where
  title : Option PyVal := none
  company : Option PyVal := none
  location : Option PyVal := none
  job_type : Option PyVal := none
  min_amount : Option PyVal := none
  max_amount : Option PyVal := none
  description : Option PyVal := none
  job_url_direct : Option PyVal := none
  job_url : Option PyVal := none
  site : Option PyVal := none
  date_posted : Option PyVal := none
  compensation : Option PyVal := none
  benefits : Option PyVal := none
deriving DecidableEq, Repr

/-- Microseconds in one day; `timedelta(days=30)` is `30 * microsecondsPerDay`. -/
def microsecondsPerDay : Int := 86400000000

/-- The canonical record built by `process_jobs` (source lines 195–215).
Timestamps are the modelled `datetime.now()` readings; metadata is flattened
into the `md_` fields. -/
structure ProcessedJob where
  title : String
  company : String
  location : String
  job_type : String
  salary_min : PyVal
  salary_max : PyVal
  description : String
  url : String
  source : String
  veteran_keywords : List String
  is_veteran_friendly : Bool
  scraped_date : Int
  expires_on : Int
  md_date_posted : Option String
  md_compensation : Option String
  md_benefits : Option String
  md_veteran_friendly : Bool
deriving DecidableEq, Repr

/-- `str(job.get(k)) if job.get(k) else None` — the metadata passthrough rule
(source lines 210–212). -/
def metaPassthrough (o : Option PyVal) : Option String :=
  let v := pyGet o .pnone
  if pyTruthy v then some (pyStr v) else none

/-- `job.get(k) if str(job.get(k)).lower() != 'nan' else None` — the salary
rule (source lines 200–201). -/
def salaryRule (o : Option PyVal) : PyVal :=
  let v := pyGet o .pnone
  if pyLower (pyStr v) ≠ "nan" then v else .pnone

/-- The description coercion (source lines 191–193): keep a string, map a
present `None` to `""`, render any other present value with `str`. -/
def coerceDescription (v : PyVal) : String :=
  match v with
  | .pstr s => s
  | .pnone => ""
  | v => pyStr v

/-- Python string slicing `s[:n]`: the first `n` characters. -/
def pySlice (s : String) (n : Nat) : String := (s.toList.take n).asString

/-- One iteration of the `process_jobs` loop body (source lines 180–216) on a
single raw record; `t1` and `t2` are the two `datetime.now()` readings of
lines 207 and 208. -/
def processJob (job : RawJob) (t1 t2 : Int) : ProcessedJob :=
  let title_keywords := has_veteran_keywords (pyGet job.title (.pstr ""))
  let desc_keywords := has_veteran_keywords (pyGet job.description (.pstr ""))
  let all_keywords := (title_keywords ++ desc_keywords).dedup
  let is_vf := decide (0 < all_keywords.length)
  { title := pyStr (pyGet job.title (.pstr "Unknown"))
    company := pyStr (pyGet job.company (.pstr "Unknown"))
    location := pyStr (pyGet job.location (.pstr "Unknown"))
    job_type := pyStr (pyGet job.job_type (.pstr "full-time"))
    salary_min := salaryRule job.min_amount
    salary_max := salaryRule job.max_amount
    description := pySlice (coerceDescription (pyGet job.description (.pstr ""))) 1000
    url := pyStr (pyGet job.job_url_direct (pyGet job.job_url (.pstr "")))
    source := pyStr (pyGet job.site (.pstr "unknown"))
    veteran_keywords := all_keywords
    is_veteran_friendly := is_vf
    scraped_date := t1
    expires_on := t2 + 30 * microsecondsPerDay
    md_date_posted := metaPassthrough job.date_posted
    md_compensation := metaPassthrough job.compensation
    md_benefits := metaPassthrough job.benefits
    md_veteran_friendly := is_vf }

/-- `JobScraper.process_jobs` (source lines 176–218): one canonical record per
raw record, appended in input order; `clock` supplies successive
`datetime.now()` readings, two per record. -/
def process_jobs : List RawJob → (Nat → Int) → List ProcessedJob
  | [], _ => []
  | job :: rest, clock =>
    processJob job (clock 0) (clock 1) :: process_jobs rest (fun n => clock (n + 2))

/-! ## Matrix scrape orchestrator (`scrape_jobs_jobspy`, source lines 106–174) -/

/-- `self.scraping_config` (source lines 82–90). -/
structure ScrapingConfig where
  max_sites_per_search : Nat
  max_search_terms : Nat
  max_locations : Nat
  jobs_per_combination : Nat
  hours_old_limit : Nat
  retry_attempts : Nat
  delay_between_requests : Nat
deriving DecidableEq, Repr

/-- The default `scraping_config` values of the source. -/
def defaultScrapingConfig : ScrapingConfig :=
  { max_sites_per_search := 2, max_search_terms := 4, max_locations := 3,
    jobs_per_combination := 2, hours_old_limit := 168, retry_attempts := 2,
    delay_between_requests := 1 }

/-- `country_mapping` (source lines 132–142). -/
def country_mapping : List (String × String) :=
  [("United States", "usa"), ("Canada", "canada"), ("United Kingdom", "uk"),
   ("Germany", "germany"), ("France", "france"), ("Australia", "australia"),
   ("Netherlands", "netherlands"), ("Spain", "spain"), ("Italy", "italy"),
   ("Norway", "norway"), ("Sweden", "sweden"), ("Denmark", "denmark"),
   ("Switzerland", "switzerland"), ("Austria", "austria"), ("Belgium", "belgium"),
   ("Finland", "finland"), ("Portugal", "portugal"), ("Ireland", "ireland"),
   ("New Zealand", "new zealand"), ("Singapore", "singapore"),
   ("Hong Kong", "hong kong"), ("Japan", "japan"), ("South Korea", "south korea"),
   ("India", "india"), ("Israel", "israel"), ("United Arab Emirates", "united arab emirates")]

/-- `country_mapping.get(location, "usa")` (source line 143). -/
def countryFor (location : String) : String :=
  (country_mapping.lookup location).getD "usa"

/-- The argument bundle of one `scrape_jobs(...)` invocation (source
lines 148–155). -/
structure RetrievalRequest where
  site_name : List String
  search_term : String
  location : String
  results_wanted : Nat
  hours_old : Nat
  country_indeed : String
deriving DecidableEq, Repr

/-- The request built inside the retry loop for one cell. -/
def buildRequest (config : ScrapingConfig) (search_term location : String) :
    RetrievalRequest :=
  { site_name := ["linkedin", "indeed"].take config.max_sites_per_search
    search_term := search_term
    location := location
    results_wanted := config.jobs_per_combination
    hours_old := config.hours_old_limit
    country_indeed := countryFor location }

/-- Outcome of one call to the external retrieval capability: a record list
(possibly empty) or a raised error. -/
inductive FetchResult where
  | success (jobs : List RawJob) : FetchResult
  | failure : FetchResult

/-- The per-cell retry loop `for attempt in range(retry_attempts)` (source
lines 129–172): `remaining` attempts are left and `a` is the index of the next
attempt; a successful call (empty or not) ends the loop, a failing call
consumes one attempt.  Returns the records the cell contributes together with
the number of attempts made (the second component is ghost instrumentation;
the Python loop only accumulates the records). -/
def cellLoop (fetch : RetrievalRequest → Nat → FetchResult)
    (req : RetrievalRequest) : Nat → Nat → List RawJob × Nat
  | 0, _ => ([], 0)
  | remaining + 1, a =>
    match fetch req a with
    | .success jobs => (jobs, 1)
    | .failure =>
      let rest := cellLoop fetch req remaining (a + 1)
      (rest.1, rest.2 + 1)

/-- `JobScraper.scrape_jobs_jobspy` (source lines 106–174): truncate the term
and location lists, iterate the matrix term-major, and concatenate the records
each cell's retry loop contributes.  The function is total: a cell whose
retries are exhausted contributes nothing and the run continues. -/
def scrape_jobs_jobspy (fetch : RetrievalRequest → Nat → FetchResult)
    (search_terms locations : List String) (config : ScrapingConfig) :
    List RawJob :=
  let terms := search_terms.take config.max_search_terms
  let locs := locations.take config.max_locations
  terms.flatMap fun search_term =>
    locs.flatMap fun location =>
      (cellLoop fetch (buildRequest config search_term location)
        config.retry_attempts 0).1

/-! ## Spec-side predicates and comparison definitions -/

/-- Modelled from the spec's matching rule, for comparison with
`has_veteran_keywords`: a keyword matches a text field iff the field is a
string and the lowercased keyword occurs as a substring of the lowercased
text; a null or non-string field matches nothing. -/
def textMatch (keyword : String) (v : PyVal) : Bool :=
  match v with
  | .pstr s => pyInStr (pyLower keyword) (pyLower s)
  | _ => false

/-- Modelled from the spec's words for C5: a salary slot is "a numeric value
or explicitly absent". -/
def specNumericOrAbsent : PyVal → Bool
  | .pnone => true
  | .pint _ => true
  | _ => false

/-- A processed record with the two per-record timestamps removed - the
comparison view used by the idempotence claim. -/
structure MaskedJob where
  title : String
  company : String
  location : String
  job_type : String
  salary_min : PyVal
  salary_max : PyVal
  description : String
  url : String
  source : String
  veteran_keywords : List String
  is_veteran_friendly : Bool
  md_date_posted : Option String
  md_compensation : Option String
  md_benefits : Option String
  md_veteran_friendly : Bool
deriving DecidableEq, Repr

/-- Drop `scraped_date` and `expires_on`, keep every other field. -/
def maskJob (p : ProcessedJob) : MaskedJob :=
  { title := p.title, company := p.company, location := p.location,
    job_type := p.job_type, salary_min := p.salary_min,
    salary_max := p.salary_max, description := p.description, url := p.url,
    source := p.source, veteran_keywords := p.veteran_keywords,
    is_veteran_friendly := p.is_veteran_friendly,
    md_date_posted := p.md_date_posted, md_compensation := p.md_compensation,
    md_benefits := p.md_benefits, md_veteran_friendly := p.md_veteran_friendly }

/-! ## Concrete fixtures used by counterexamples and witnesses -/

/-- A raw record with every key absent. -/
def emptyRawJob : RawJob := {}

/-- A raw record whose `date_posted` key is present with the falsy value `0`. -/
def c4job : RawJob := { date_posted := some (.pint 0) }

/-- A raw record whose `min_amount` is a present non-numeric, non-"nan"
string. -/
def c5job : RawJob := { min_amount := some (.pstr "TBD") }

/-- A raw record whose `min_amount` is the string `"NaN"`. -/
def c5nanJob : RawJob := { min_amount := some (.pstr "NaN") }

/-- A raw record with a veteran keyword in the title and none in the
description. -/
def c6job : RawJob :=
  { title := some (.pstr "Senior Veteran Outreach Lead"),
    description := some (.pstr "Great role, Military background welcome") }

/-- A raw record whose `description` key is present with value `None`. -/
def c8job : RawJob := { description := some .pnone }

/-- A raw record carrying concrete metadata values: a truthy `date_posted`,
a falsy (zero) `compensation`, and no `benefits` key. -/
def c4mixJob : RawJob :=
  { date_posted := some (.pstr "2024-01-01"),
    compensation := some (.pint 0) }

/-- A raw record with every string-sourced key present but `None`. -/
def c10job : RawJob :=
  { title := some .pnone, company := some .pnone, location := some .pnone,
    job_type := some .pnone, site := some .pnone,
    job_url_direct := some .pnone, job_url := some (.pstr "https://a.example/j") }

/-- The retrieval behaviour of the C2 scenario: every call for cell
`(term1, loc1)` fails; every other cell returns three records. -/
def c2Fetch (req : RetrievalRequest) (_attempt : Nat) : FetchResult :=
  if req.search_term = "term1" ∧ req.location = "loc1" then .failure
  else .success [emptyRawJob, emptyRawJob, emptyRawJob]

/-- The configuration of the C2 scenario: a 2×2 matrix with
`retry_attempts = 2`. -/
def c2Config : ScrapingConfig :=
  { max_sites_per_search := 2, max_search_terms := 2, max_locations := 2,
    jobs_per_combination := 3, hours_old_limit := 168, retry_attempts := 2,
    delay_between_requests := 1 }

/-! ## Helper lemmas -/

theorem process_jobs_length (jobs : List RawJob) (clock : Nat → Int) :
    (process_jobs jobs clock).length = jobs.length := by
  induction jobs generalizing clock with
  | nil => rfl
  | cons job rest ih => simp [process_jobs, ih]

theorem process_jobs_getElem? (jobs : List RawJob) (clock : Nat → Int) (i : Nat) :
    (process_jobs jobs clock)[i]? =
      (jobs[i]?).map (fun job => processJob job (clock (2 * i)) (clock (2 * i + 1))) := by
  induction jobs generalizing clock i with
  | nil => simp [process_jobs]
  | cons job rest ih =>
    cases i with
    | zero => simp [process_jobs]
    | succ n =>
      have h1 : 2 * (n + 1) = 2 * n + 2 := by ring
      have h2 : 2 * (n + 1) + 1 = 2 * n + 1 + 2 := by ring
      simp only [process_jobs, List.getElem?_cons_succ, h1, h2]
      exact ih (fun m => clock (m + 2)) n

theorem process_jobs_pointwise {jobs : List RawJob} {clock : Nat → Int} {i : Nat}
    {job : RawJob} {p : ProcessedJob}
    (hj : jobs[i]? = some job) (hp : (process_jobs jobs clock)[i]? = some p) :
    p = processJob job (clock (2 * i)) (clock (2 * i + 1)) := by
  rw [process_jobs_getElem?, hj, Option.map_some'] at hp
  exact (Option.some_inj.mp hp).symm

theorem mem_process_jobs {p : ProcessedJob} {jobs : List RawJob} {clock : Nat → Int}
    (h : p ∈ process_jobs jobs clock) :
    ∃ job ∈ jobs, ∃ t1 t2, p = processJob job t1 t2 := by
  induction jobs generalizing clock with
  | nil => simp [process_jobs] at h
  | cons job rest ih =>
    simp only [process_jobs, List.mem_cons] at h
    rcases h with h | h
    · exact ⟨job, List.mem_cons_self job rest, clock 0, clock 1, h⟩
    · obtain ⟨j, hj, t1, t2, hp⟩ := ih h
      exact ⟨j, List.mem_cons_of_mem _ hj, t1, t2, hp⟩

theorem cellLoop_attempts_le (fetch : RetrievalRequest → Nat → FetchResult)
    (req : RetrievalRequest) (remaining a : Nat) :
    (cellLoop fetch req remaining a).2 ≤ remaining := by
  induction remaining generalizing a with
  | zero => simp [cellLoop]
  | succ k ih =>
    simp only [cellLoop]
    cases fetch req a with
    | success jobs => simp
    | failure => simpa using ih (a + 1)

theorem has_veteran_keywords_eq_filter (v : PyVal) :
    has_veteran_keywords v =
      veteran_keywords.filter (fun keyword => textMatch keyword v) := by
  cases v with
  | pnone => rfl
  | pint n => rfl
  | pbool b => rfl
  | pstr s =>
    by_cases hs : s = ""
    · subst hs; decide
    · simp only [has_veteran_keywords, textMatch, if_neg hs]

theorem pySlice_length_le (s : String) (n : Nat) : (pySlice s n).length ≤ n := by
  simp only [pySlice]
  have h : ((s.toList.take n).asString).length = (s.toList.take n).length := by
    simp
  rw [h, List.length_take]
  exact min_le_left _ _

/-! ## Claims -/

/-- C1: `process_jobs` produces exactly one canonical record per raw record,
in input order, and drops nothing - the output has the input's length and its
`i`-th element is the processed form of the `i`-th raw record, for every
input and every clock. -/
theorem C1_one_record_per_raw_in_order (jobs : List RawJob) (clock : Nat → Int) :
    (process_jobs jobs clock).length = jobs.length ∧
    ∀ i : Nat, (process_jobs jobs clock)[i]? =
      (jobs[i]?).map (fun job => processJob job (clock (2 * i)) (clock (2 * i + 1))) :=
  ⟨process_jobs_length jobs clock, fun i => process_jobs_getElem? jobs clock i⟩

/-- C2: in the 2×2 scenario where every call for cell `(term1, loc1)` fails
and every other cell returns 3 records, the orchestrator (a total function,
so the run never raises) returns exactly 9 raw records and the failing cell
is attempted exactly `retry_attempts = 2` times; moreover, for every fetch
behaviour, no cell's retry loop ever makes more attempts than
`retry_attempts`. -/
theorem C2_retry_exhaust_and_skip :
    (scrape_jobs_jobspy c2Fetch ["term1", "term2"] ["loc1", "loc2"] c2Config).length = 9 ∧
    (cellLoop c2Fetch (buildRequest c2Config "term1" "loc1")
      c2Config.retry_attempts 0).2 = 2 ∧
    ∀ (fetch : RetrievalRequest → Nat → FetchResult) (req : RetrievalRequest)
      (remaining a : Nat), (cellLoop fetch req remaining a).2 ≤ remaining :=
  ⟨by decide, by decide, cellLoop_attempts_le⟩

/-- C3 counterexample: `scraped_date` and `expires_on` come from two separate
`datetime.now()` readings (source lines 207-208), so with a clock that
advances by one microsecond between readings the difference is 30 days plus
one microsecond, not exactly 30 days. -/
theorem C3_counterexample :
    ((process_jobs [emptyRawJob] (fun n => (n : Int))).map
      (fun p => p.expires_on - p.scraped_date)) = [30 * microsecondsPerDay + 1] ∧
    (30 * microsecondsPerDay + 1 : Int) ≠ 30 * microsecondsPerDay := by
  constructor
  · decide
  · decide

/-- C3 amended: `expires_on` is 30 days after the *second* `now()` reading of
the record, so `expires_on - scraped_date` is exactly 30 days whenever the
clock does not advance between the record's two readings. -/
theorem C3_expiry_thirty_days_of_second_reading (jobs : List RawJob)
    (clock : Nat → Int) (h : ∀ i, clock (2 * i + 1) = clock (2 * i)) :
    ∀ p ∈ process_jobs jobs clock,
      p.expires_on - p.scraped_date = 30 * microsecondsPerDay := by
  induction jobs generalizing clock with
  | nil => intro p hp; simp [process_jobs] at hp
  | cons job rest ih =>
    intro p hp
    simp only [process_jobs, List.mem_cons] at hp
    rcases hp with hp | hp
    · subst hp
      have h0 := h 0
      simp only [Nat.mul_zero, Nat.zero_add] at h0
      simp [processJob, h0]
    · refine ih (fun n => clock (n + 2)) ?_ p hp
      intro i
      have hi := h (i + 1)
      have e1 : 2 * (i + 1) + 1 = 2 * i + 1 + 2 := by ring
      have e2 : 2 * (i + 1) = 2 * i + 2 := by ring
      rw [e1, e2] at hi
      exact hi

/-- C3 amended, witness: with a constant clock the single record of a
singleton batch has `expires_on - scraped_date` exactly 30 days. -/
theorem C3_expiry_witness :
    (processJob emptyRawJob 0 0).expires_on -
      (processJob emptyRawJob 0 0).scraped_date = 30 * microsecondsPerDay :=
  C3_expiry_thirty_days_of_second_reading [emptyRawJob] (fun _ => 0)
    (fun _ => rfl) (processJob emptyRawJob 0 0) (by simp [process_jobs])

/-- C4 counterexample: the metadata passthrough uses Python truthiness
(source lines 210-212), so a `date_posted` key that is present with the falsy
value `0` - neither absent nor `None` - is mapped to null, not to the string
`"0"` the claim requires. -/
theorem C4_counterexample :
    c4job.date_posted = some (.pint 0) ∧
    c4job.date_posted ≠ none ∧ c4job.date_posted ≠ some .pnone ∧
    ((process_jobs [c4job] (fun _ => 0)).map (fun p => p.md_date_posted)) =
      [none] ∧
    (none : Option String) ≠ some "0" := by
  refine ⟨rfl, by decide, by decide, by decide, by decide⟩

/-- C4 amended: each metadata passthrough field (`date_posted`,
`compensation`, `benefits`) is coerced to its string form when its value is
truthy, and set to null when it is falsy - which covers absence and `None`
but also present falsy values such as `0`, the empty string and `False`. -/
theorem C4_metadata_truthy_passthrough (jobs : List RawJob) (clock : Nat → Int)
    (i : Nat) (job : RawJob) (p : ProcessedJob)
    (hj : jobs[i]? = some job) (hp : (process_jobs jobs clock)[i]? = some p) :
    (pyTruthy (pyGet job.date_posted .pnone) = true →
      p.md_date_posted = some (pyStr (pyGet job.date_posted .pnone))) ∧
    (pyTruthy (pyGet job.date_posted .pnone) = false → p.md_date_posted = none) ∧
    (pyTruthy (pyGet job.compensation .pnone) = true →
      p.md_compensation = some (pyStr (pyGet job.compensation .pnone))) ∧
    (pyTruthy (pyGet job.compensation .pnone) = false → p.md_compensation = none) ∧
    (pyTruthy (pyGet job.benefits .pnone) = true →
      p.md_benefits = some (pyStr (pyGet job.benefits .pnone))) ∧
    (pyTruthy (pyGet job.benefits .pnone) = false → p.md_benefits = none) := by
  have hpe := process_jobs_pointwise hj hp
  subst hpe
  refine ⟨fun h => ?_, fun h => ?_, fun h => ?_, fun h => ?_, fun h => ?_, fun h => ?_⟩ <;>
    simp [processJob, metaPassthrough, h]

/-- C4 amended, witness: a record with a truthy `date_posted`, a present-but-
zero `compensation` and an absent `benefits` key yields the string form, null
and null respectively. -/
theorem C4_metadata_witness :
    (processJob c4mixJob 0 0).md_date_posted = some "2024-01-01" ∧
    (processJob c4mixJob 0 0).md_compensation = none ∧
    (processJob c4mixJob 0 0).md_benefits = none := by
  have h := C4_metadata_truthy_passthrough [c4mixJob] (fun _ => 0) 0 c4mixJob
    (processJob c4mixJob 0 0) rfl rfl
  exact ⟨h.1 (by decide), h.2.2.2.1 (by decide), h.2.2.2.2.2 (by decide)⟩

/-- C5 counterexample: the salary rule passes any value through unless its
string form lowercases to `"nan"` (source lines 200-201), so a present
`min_amount` that is the string `"TBD"` reaches `salary_min` unchanged -
neither a numeric value nor an absence. -/
theorem C5_counterexample :
    c5job.min_amount = some (.pstr "TBD") ∧
    ((process_jobs [c5job] (fun _ => 0)).map (fun p => p.salary_min)) =
      [.pstr "TBD"] ∧
    ((process_jobs [c5job] (fun _ => 0)).map
      (fun p => specNumericOrAbsent p.salary_min)) = [false] := by
  refine ⟨rfl, by decide, by decide⟩

/-- C5 amended: `salary_min`/`salary_max` equal the raw `min_amount` /
`max_amount` value unless its string form case-insensitively equals `"nan"`,
in which case they are explicitly absent; in particular a raw `"nan"` string
of any casing maps to absence, and the numeric-or-absent guarantee holds
exactly when the raw field itself is numeric, null or missing. -/
theorem C5_salary_nan_to_absent (jobs : List RawJob) (clock : Nat → Int)
    (i : Nat) (job : RawJob) (p : ProcessedJob)
    (hj : jobs[i]? = some job) (hp : (process_jobs jobs clock)[i]? = some p) :
    (pyLower (pyStr (pyGet job.min_amount .pnone)) = "nan" →
      p.salary_min = .pnone) ∧
    (pyLower (pyStr (pyGet job.min_amount .pnone)) ≠ "nan" →
      p.salary_min = pyGet job.min_amount .pnone) ∧
    (pyLower (pyStr (pyGet job.max_amount .pnone)) = "nan" →
      p.salary_max = .pnone) ∧
    (pyLower (pyStr (pyGet job.max_amount .pnone)) ≠ "nan" →
      p.salary_max = pyGet job.max_amount .pnone) := by
  have hpe := process_jobs_pointwise hj hp
  subst hpe
  refine ⟨fun h => ?_, fun h => ?_, fun h => ?_, fun h => ?_⟩ <;>
    simp [processJob, salaryRule, h]

/-- C5 amended, witness: a raw `min_amount` of `"NaN"` becomes an explicitly
absent `salary_min`, and an absent `max_amount` stays absent. -/
theorem C5_salary_witness :
    (processJob c5nanJob 0 0).salary_min = .pnone ∧
    (processJob c5nanJob 0 0).salary_max = .pnone := by
  have h := C5_salary_nan_to_absent [c5nanJob] (fun _ => 0) 0 c5nanJob
    (processJob c5nanJob 0 0) rfl rfl
  exact ⟨h.1 (by decide), h.2.2.2 (by decide)⟩

/-- C6: a record's `veteran_keywords` is duplicate-free and contains exactly
the configured keywords that match (case-insensitive substring) the raw
title or the raw description, a null or non-string field contributing no
matches. -/
theorem C6_keyword_union (jobs : List RawJob) (clock : Nat → Int)
    (i : Nat) (job : RawJob) (p : ProcessedJob)
    (hj : jobs[i]? = some job) (hp : (process_jobs jobs clock)[i]? = some p) :
    p.veteran_keywords.Nodup ∧
    ∀ k, k ∈ p.veteran_keywords ↔
      k ∈ veteran_keywords ∧
        (textMatch k (pyGet job.title (.pstr "")) = true ∨
         textMatch k (pyGet job.description (.pstr "")) = true) := by
  have hpe := process_jobs_pointwise hj hp
  subst hpe
  constructor
  · simp only [processJob]
    exact List.nodup_dedup _
  · intro k
    simp only [processJob, List.mem_dedup, List.mem_append,
      has_veteran_keywords_eq_filter, List.mem_filter]
    tauto

/-- C6 witness: for a record whose title holds "Veteran" and whose
description holds "Military background", the keyword collection is
duplicate-free and its membership at "veteran" agrees with the matching
predicate. -/
theorem C6_keyword_witness :
    (processJob c6job 0 0).veteran_keywords.Nodup ∧
    ("veteran" ∈ (processJob c6job 0 0).veteran_keywords ↔
      "veteran" ∈ veteran_keywords ∧
        (textMatch "veteran" (pyGet c6job.title (.pstr "")) = true ∨
         textMatch "veteran" (pyGet c6job.description (.pstr "")) = true)) := by
  have h := C6_keyword_union [c6job] (fun _ => 0) 0 c6job
    (processJob c6job 0 0) rfl rfl
  exact ⟨h.1, h.2 "veteran"⟩

/-- C7: `is_veteran_friendly` is true exactly when the record's
`veteran_keywords` collection is non-empty. -/
theorem C7_indicator_iff_keywords (jobs : List RawJob) (clock : Nat → Int)
    (p : ProcessedJob) (hp : p ∈ process_jobs jobs clock) :
    p.is_veteran_friendly = true ↔ p.veteran_keywords ≠ [] := by
  obtain ⟨job, _, t1, t2, rfl⟩ := mem_process_jobs hp
  simp only [processJob, decide_eq_true_eq, List.length_pos]

/-- C7 witness: the indicator equivalence at a concrete veteran-tagged
record. -/
theorem C7_indicator_witness :
    (processJob c6job 0 0).is_veteran_friendly = true ↔
      (processJob c6job 0 0).veteran_keywords ≠ [] :=
  C7_indicator_iff_keywords [c6job] (fun _ => 0) (processJob c6job 0 0)
    (by simp [process_jobs])

/-- C8 counterexample: a `description` key present with value `None` is
special-cased to the empty string (source line 193), not coerced to its
string form `"None"` as the claim's present/absent dichotomy requires. -/
theorem C8_counterexample :
    c8job.description = some PyVal.pnone ∧
    ((process_jobs [c8job] (fun _ => 0)).map (fun p => p.description)) = [""] ∧
    ("" : String) ≠ pyStr PyVal.pnone := by
  refine ⟨rfl, by decide, by decide⟩

/-- C8 amended: the canonical description is always at most 1000 characters;
an absent or null raw value defaults to the empty string, a present string is
truncated to its first 1000 characters, and a present non-string non-null
value is rendered with `str` and then truncated. -/
theorem C8_description_truncated (jobs : List RawJob) (clock : Nat → Int)
    (i : Nat) (job : RawJob) (p : ProcessedJob)
    (hj : jobs[i]? = some job) (hp : (process_jobs jobs clock)[i]? = some p) :
    p.description.length ≤ 1000 ∧
    (job.description = none → p.description = "") ∧
    (job.description = some .pnone → p.description = "") ∧
    (∀ s, job.description = some (.pstr s) → p.description = pySlice s 1000) ∧
    (∀ v, job.description = some v → v ≠ .pnone → (∀ s, v ≠ .pstr s) →
      p.description = pySlice (pyStr v) 1000) := by
  have hpe := process_jobs_pointwise hj hp
  subst hpe
  refine ⟨?_, fun h => ?_, fun h => ?_, fun s h => ?_, fun v h hn hs => ?_⟩
  · simpa only [processJob] using pySlice_length_le _ 1000
  · simp only [processJob, h, pyGet, Option.getD_none, coerceDescription, pySlice]
    rfl
  · simp only [processJob, h, pyGet, Option.getD_some, coerceDescription, pySlice]
    rfl
  · simp [processJob, h, pyGet, coerceDescription]
  · cases v with
    | pnone => exact absurd rfl hn
    | pstr s => exact absurd rfl (hs s)
    | pint n => simp [processJob, h, pyGet, coerceDescription]
    | pbool b => simp [processJob, h, pyGet, coerceDescription]

/-- C8 amended, witness: a present-`None` description yields the empty
string, which is within the 1000-character bound. -/
theorem C8_description_witness :
    (processJob c8job 0 0).description.length ≤ 1000 ∧
    (processJob c8job 0 0).description = "" := by
  have h := C8_description_truncated [c8job] (fun _ => 0) 0 c8job
    (processJob c8job 0 0) rfl rfl
  exact ⟨h.1, h.2.2.1 rfl⟩

/-- C9: with the timestamps masked, the pipeline output is a deterministic
function of the raw input - two runs with arbitrary (different) clocks agree
on every other field. -/
theorem C9_deterministic_modulo_timestamps (jobs : List RawJob)
    (clock1 clock2 : Nat → Int) :
    (process_jobs jobs clock1).map maskJob =
      (process_jobs jobs clock2).map maskJob := by
  induction jobs generalizing clock1 clock2 with
  | nil => rfl
  | cons job rest ih =>
    simp only [process_jobs, List.map_cons]
    exact congrArg₂ (· :: ·) rfl (ih _ _)

/-- C10: the string-field defaults are `dict.get` defaults, applied only when
the key is absent; a key present with `None` is rendered by `str` as the
string "None" - in particular a present-`None` `job_url_direct` yields the
url "None" instead of falling back to `job_url`. -/
theorem C10_defaults_only_when_absent (jobs : List RawJob) (clock : Nat → Int)
    (i : Nat) (job : RawJob) (p : ProcessedJob)
    (hj : jobs[i]? = some job) (hp : (process_jobs jobs clock)[i]? = some p) :
    (job.title = some .pnone → p.title = "None") ∧
    (job.title = none → p.title = "Unknown") ∧
    (job.company = some .pnone → p.company = "None") ∧
    (job.company = none → p.company = "Unknown") ∧
    (job.location = some .pnone → p.location = "None") ∧
    (job.location = none → p.location = "Unknown") ∧
    (job.job_type = some .pnone → p.job_type = "None") ∧
    (job.job_type = none → p.job_type = "full-time") ∧
    (job.site = some .pnone → p.source = "None") ∧
    (job.site = none → p.source = "unknown") ∧
    (job.job_url_direct = some .pnone → p.url = "None") ∧
    (job.job_url_direct = none → p.url = pyStr (pyGet job.job_url (.pstr ""))) := by
  have hpe := process_jobs_pointwise hj hp
  subst hpe
  refine ⟨fun h => ?_, fun h => ?_, fun h => ?_, fun h => ?_, fun h => ?_,
    fun h => ?_, fun h => ?_, fun h => ?_, fun h => ?_, fun h => ?_,
    fun h => ?_, fun h => ?_⟩ <;>
    simp [processJob, h, pyGet, pyStr]

/-- C10 witness: a record whose keys are all present with `None` (and whose
`job_url` is a real link) gets the literal string "None" for its title and
its url - no default, no fallback. -/
theorem C10_defaults_witness :
    (processJob c10job 0 0).title = "None" ∧
    (processJob c10job 0 0).url = "None" := by
  have h := C10_defaults_only_when_absent [c10job] (fun _ => 0) 0 c10job
    (processJob c10job 0 0) rfl rfl
  exact ⟨h.1 rfl, h.2.2.2.2.2.2.2.2.2.2.1 rfl⟩
